import Mathlib

set_option linter.unusedVariables false

namespace Glycerol

/-- The twelve fixed parameter names of the model, in the insertion order of the
source's OPTIMAL_RANGES dictionary. -/
inductive ParamName where
  | t2
  | t3
  | t4
  | t1
  | t5
  | lhsv
  | h2gly_ratio
  | liquid_feed
  | hydrogen_flow
  | top_pressure
  | bottom_pressure
  | feed_ph
  deriving DecidableEq, Fintype

/-- One entry of the OPTIMAL_RANGES table: the per-parameter configuration record
with fields min, max, optimal, weight, sensitivity, base_impact. -/
structure ParamInfo where
  min : ℝ
  max : ℝ
  optimal : ℝ
  weight : ℝ
  sensitivity : ℝ
  base_impact : ℝ

noncomputable section

/-- The fixed configuration table of the source (OPTIMAL_RANGES), one record per
parameter name; fields in order min, max, optimal, weight, sensitivity, base_impact. -/
def OPTIMAL_RANGES : ParamName → ParamInfo
  | .t2 => ⟨195, 205, 200, 0.27, 0.217985, 30⟩
  | .t3 => ⟨195, 205, 200, 0.25, 0.136957, 25⟩
  | .t4 => ⟨195, 205, 200, 0.40, 0.181967, 25⟩
  | .t1 => ⟨190, 200, 195, 0.10, 0.069769, 10⟩
  | .t5 => ⟨190, 200, 195, 0.05, 0.003058, 10⟩
  | .lhsv => ⟨0.5, 0.7, 0.6, 0.05, 0.016678, 5⟩
  | .h2gly_ratio => ⟨6, 7, 6.5, 0.05, 0.004925, 5⟩
  | .liquid_feed => ⟨50, 150, 100, 0.05, 0.000073, 5⟩
  | .hydrogen_flow => ⟨300, 600, 450, 0.05, 0.000058, 5⟩
  | .top_pressure => ⟨20, 40, 30, 0.05, 0.003176, 5⟩
  | .bottom_pressure => ⟨15, 35, 25, 0.05, 0.001230, 5⟩
  | .feed_ph => ⟨6, 8, 7, 0.05, 0.010348, 5⟩

/-- scipy.special.expit: the logistic sigmoid 1 / (1 + exp(-z)). -/
def expit (z : ℝ) : ℝ := 1 / (1 + Real.exp (-z))

/-- smooth_transition of the source: expit(-(x - center) * sensitivity). -/
def smooth_transition (x center sensitivity : ℝ) : ℝ :=
  expit (-(x - center) * sensitivity)

/-- calculate_parameter_impact of the source: normalized distance from optimal,
sigmoid base effect scaled by base_impact, with a 20%-capped penalty multiplier
applied only when the value lies strictly outside [min, max]. -/
def calculate_parameter_impact (value : ℝ) (param_info : ParamInfo) : ℝ :=
  let optimal := param_info.optimal
  let min_val := param_info.min
  let max_val := param_info.max
  let sensitivity := param_info.sensitivity
  let base_impact := param_info.base_impact
  let range_size := max_val - min_val
  let normalized_distance := |value - optimal| / range_size
  let base_effect := smooth_transition normalized_distance 0 (1 / sensitivity)
  let impact := base_impact * base_effect
  if value < min_val ∨ value > max_val then
    impact * (1 - 0.2 * min (|value - optimal| / range_size) 1)
  else
    impact

/-- The twelve parameter names in the iteration order of the source's dictionaries. -/
def allNames : List ParamName :=
  [ .t2, .t3, .t4, .t1, .t5, .lhsv, .h2gly_ratio, .liquid_feed,
    .hydrogen_flow, .top_pressure, .bottom_pressure, .feed_ph ]

/-- np.clip(x, lo, hi): clamp x into [lo, hi]. -/
def clip (x lo hi : ℝ) : ℝ := min (max x lo) hi

/-- calculate_total_conversion of the source. A parameter set is a map from names to
optional values (a Python dict over the twelve fixed keys); a direct dict access of a
missing key (the derived-aggregate lines) aborts the computation (KeyError), modelled
by Option.bind, in the source's access order: top_pressure, bottom_pressure, then
t1..t5 in the temps list. The impacts dict only contains the keys present in params;
their values are summed, added to the base conversion 60 and clamped to [0, 100]. -/
def calculate_total_conversion (params : ParamName → Option ℝ) :
    Option (ℝ × (ParamName → Option ℝ)) :=
  (params ParamName.top_pressure).bind fun tp =>
  (params ParamName.bottom_pressure).bind fun bp =>
  (params ParamName.t1).bind fun v1 =>
  (params ParamName.t2).bind fun v2 =>
  (params ParamName.t3).bind fun v3 =>
  (params ParamName.t4).bind fun v4 =>
  (params ParamName.t5).bind fun v5 =>
  let pressure_diff := tp - bp
  let avg_temperature := (v1 + v2 + v3 + v4 + v5) / 5
  let temp_range := max v1 (max v2 (max v3 (max v4 v5))) -
    min v1 (min v2 (min v3 (min v4 v5)))
  let impacts : ParamName → Option ℝ := fun name =>
    (params name).map fun value => calculate_parameter_impact value (OPTIMAL_RANGES name)
  let total_impact := (allNames.map fun name => (impacts name).getD 0).sum
  let base_conversion : ℝ := 60
  let conversion := clip (base_conversion + total_impact) 0 100
  some (conversion, impacts)

/-- Variant of calculate_total_conversion with the three derived-aggregate
computations (pressure differential, average temperature, temperature range)
removed, for the inertness claim. -/
def calculate_total_conversion_noaggr (params : ParamName → Option ℝ) :
    Option (ℝ × (ParamName → Option ℝ)) :=
  let impacts : ParamName → Option ℝ := fun name =>
    (params name).map fun value => calculate_parameter_impact value (OPTIMAL_RANGES name)
  let total_impact := (allNames.map fun name => (impacts name).getD 0).sum
  let base_conversion : ℝ := 60
  let conversion := clip (base_conversion + total_impact) 0 100
  some (conversion, impacts)

end

/-! Basic facts about the logistic sigmoid. -/

lemma one_add_exp_pos (z : ℝ) : 0 < 1 + Real.exp z :=
  add_pos one_pos (Real.exp_pos z)

lemma expit_pos (z : ℝ) : 0 < expit z :=
  div_pos one_pos (one_add_exp_pos (-z))

lemma expit_lt_one (z : ℝ) : expit z < 1 := by
  rw [expit, div_lt_one (one_add_exp_pos (-z))]
  exact lt_add_of_pos_right 1 (Real.exp_pos (-z))

lemma expit_zero_eq : expit 0 = 1 / 2 := by
  rw [expit, neg_zero, Real.exp_zero]
  norm_num

lemma expit_strictMono : StrictMono expit := by
  intro z1 z2 h
  rw [expit, expit, div_lt_div_iff₀ (one_add_exp_pos (-z1)) (one_add_exp_pos (-z2))]
  have : Real.exp (-z2) < Real.exp (-z1) := Real.exp_lt_exp.mpr (by linarith)
  linarith

lemma expit_le_half (z : ℝ) (hz : z ≤ 0) : expit z ≤ 1 / 2 := by
  rcases eq_or_lt_of_le hz with h | h
  · rw [h, expit_zero_eq]
  · exact le_of_lt (expit_zero_eq ▸ expit_strictMono h)

lemma expit_lt_half (z : ℝ) (hz : z < 0) : expit z < 1 / 2 :=
  expit_zero_eq ▸ expit_strictMono hz

/-! Unfolding lemmas for the impact computation. -/

/-- calculate_parameter_impact written without the local lets, in terms of expit. -/
lemma impact_eq (value : ℝ) (p : ParamInfo) :
    calculate_parameter_impact value p =
      if value < p.min ∨ value > p.max then
        p.base_impact * expit (-(|value - p.optimal| / (p.max - p.min)) * (1 / p.sensitivity)) *
          (1 - 0.2 * min (|value - p.optimal| / (p.max - p.min)) 1)
      else
        p.base_impact * expit (-(|value - p.optimal| / (p.max - p.min)) * (1 / p.sensitivity)) := by
  simp only [calculate_parameter_impact, smooth_transition, sub_zero]

/-- At the optimal value the impact is exactly half the base impact, in both branches. -/
lemma impact_optimal (p : ParamInfo) :
    calculate_parameter_impact p.optimal p = p.base_impact * 0.5 := by
  rw [impact_eq]
  have hd : |p.optimal - p.optimal| / (p.max - p.min) = 0 := by simp
  rw [hd]
  have h0 : expit (-(0 : ℝ) * (1 / p.sensitivity)) = 1 / 2 := by
    rw [neg_zero, zero_mul, expit_zero_eq]
  rw [h0]
  split
  · norm_num
  · norm_num

/-- The impact of any value under a valid spec lies in [0, base_impact]. -/
lemma impact_nonneg_le_base (value : ℝ) (p : ParamInfo)
    (hr : p.min < p.max) (hb : 0 ≤ p.base_impact) :
    0 ≤ calculate_parameter_impact value p ∧
      calculate_parameter_impact value p ≤ p.base_impact := by
  rw [impact_eq]
  set d := |value - p.optimal| / (p.max - p.min) with hd
  set e := expit (-d * (1 / p.sensitivity)) with he
  have hd0 : 0 ≤ d := div_nonneg (abs_nonneg _) (by linarith)
  have he0 : 0 < e := expit_pos _
  have he1 : e < 1 := expit_lt_one _
  have hbe0 : 0 ≤ p.base_impact * e := mul_nonneg hb he0.le
  have hbe1 : p.base_impact * e ≤ p.base_impact := by
    calc p.base_impact * e ≤ p.base_impact * 1 :=
          mul_le_mul_of_nonneg_left he1.le hb
      _ = p.base_impact := mul_one _
  split
  · have hm0 : (0 : ℝ) ≤ min d 1 := le_min hd0 zero_le_one
    have hm1 : min d 1 ≤ 1 := min_le_right _ _
    have hf0 : (0 : ℝ) ≤ 1 - 0.2 * min d 1 := by linarith
    have hf1 : (1 : ℝ) - 0.2 * min d 1 ≤ 1 := by linarith
    constructor
    · exact mul_nonneg hbe0 hf0
    · calc p.base_impact * e * (1 - 0.2 * min d 1) ≤ p.base_impact * e * 1 :=
            mul_le_mul_of_nonneg_left hf1 hbe0
        _ = p.base_impact * e := mul_one _
        _ ≤ p.base_impact := hbe1
  · exact ⟨hbe0, hbe1⟩

/-- The impact of any value under a valid spec is at most half the base impact. -/
lemma impact_le_half (value : ℝ) (p : ParamInfo)
    (hr : p.min < p.max) (hs : 0 < p.sensitivity) (hb : 0 ≤ p.base_impact) :
    calculate_parameter_impact value p ≤ p.base_impact * 0.5 := by
  rw [impact_eq]
  set d := |value - p.optimal| / (p.max - p.min) with hd
  set e := expit (-d * (1 / p.sensitivity)) with he
  have hd0 : 0 ≤ d := div_nonneg (abs_nonneg _) (by linarith)
  have harg : -d * (1 / p.sensitivity) ≤ 0 := by
    have : 0 ≤ d * (1 / p.sensitivity) :=
      mul_nonneg hd0 (le_of_lt (by positivity))
    linarith
  have heh : e ≤ 1 / 2 := expit_le_half _ harg
  have he0 : 0 < e := expit_pos _
  have hbe0 : 0 ≤ p.base_impact * e := mul_nonneg hb he0.le
  have hbe : p.base_impact * e ≤ p.base_impact * 0.5 := by
    have := mul_le_mul_of_nonneg_left heh hb
    calc p.base_impact * e ≤ p.base_impact * (1 / 2) := this
      _ = p.base_impact * 0.5 := by norm_num
  split
  · have hm0 : (0 : ℝ) ≤ min d 1 := le_min hd0 zero_le_one
    have hf1 : (1 : ℝ) - 0.2 * min d 1 ≤ 1 := by linarith
    calc p.base_impact * e * (1 - 0.2 * min d 1) ≤ p.base_impact * e * 1 :=
          mul_le_mul_of_nonneg_left hf1 hbe0
      _ = p.base_impact * e := mul_one _
      _ ≤ p.base_impact * 0.5 := hbe
  · exact hbe

/-- Away from the optimal value, under a valid spec with positive base impact, the
impact is strictly below half the base impact. -/
lemma impact_lt_half (value : ℝ) (p : ParamInfo)
    (hr : p.min < p.max) (hs : 0 < p.sensitivity) (hb : 0 < p.base_impact)
    (hne : value ≠ p.optimal) :
    calculate_parameter_impact value p < p.base_impact * 0.5 := by
  rw [impact_eq]
  set d := |value - p.optimal| / (p.max - p.min) with hd
  set e := expit (-d * (1 / p.sensitivity)) with he
  have hd0 : 0 < d := by
    apply div_pos _ (by linarith)
    exact abs_pos.mpr (sub_ne_zero.mpr hne)
  have harg : -d * (1 / p.sensitivity) < 0 := by
    have : 0 < d * (1 / p.sensitivity) := mul_pos hd0 (by positivity)
    linarith
  have heh : e < 1 / 2 := expit_lt_half _ harg
  have he0 : 0 < e := expit_pos _
  have hbe0 : 0 ≤ p.base_impact * e := mul_nonneg hb.le he0.le
  have hbe : p.base_impact * e < p.base_impact * 0.5 := by
    have := mul_lt_mul_of_pos_left heh hb
    calc p.base_impact * e < p.base_impact * (1 / 2) := this
      _ = p.base_impact * 0.5 := by norm_num
  split
  · have hm0 : (0 : ℝ) ≤ min d 1 := le_min hd0.le zero_le_one
    have hf1 : (1 : ℝ) - 0.2 * min d 1 ≤ 1 := by linarith
    calc p.base_impact * e * (1 - 0.2 * min d 1) ≤ p.base_impact * e * 1 :=
          mul_le_mul_of_nonneg_left hf1 hbe0
      _ = p.base_impact * e := mul_one _
      _ < p.base_impact * 0.5 := hbe
  · exact hbe

/-- On a complete parameter set, calculate_total_conversion returns the clamp of 60
plus the sum of the twelve impacts, together with the impact of each parameter. -/
lemma total_conversion_complete (f : ParamName → ℝ) :
    calculate_total_conversion (fun n => some (f n)) =
      some
        (clip
          (60 +
            (allNames.map fun n =>
              calculate_parameter_impact (f n) (OPTIMAL_RANGES n)).sum) 0 100,
          fun n => some (calculate_parameter_impact (f n) (OPTIMAL_RANGES n))) := by
  simp [calculate_total_conversion]

/-- clip into [0, 100] always lands in [0, 100]. -/
lemma clip_bounds (x : ℝ) : 0 ≤ clip x 0 100 ∧ clip x 0 100 ≤ 100 := by
  constructor
  · exact le_min (le_max_right x 0) (by norm_num)
  · exact min_le_right _ _

/-- Omitting one of the five names not consumed by the derived aggregates yields a
normal (partial) result: the breakdown lacks the omitted name and its impact is
missing from the sum. -/
lemma total_conversion_missing_noncritical (f : ParamName → ℝ) (m : ParamName)
    (hm : m = ParamName.lhsv ∨ m = ParamName.h2gly_ratio ∨ m = ParamName.liquid_feed ∨
      m = ParamName.hydrogen_flow ∨ m = ParamName.feed_ph) :
    calculate_total_conversion (fun n => if n = m then none else some (f n)) =
      some
        (clip
          (60 +
            ((allNames.filter fun n => n ≠ m).map fun n =>
              calculate_parameter_impact (f n) (OPTIMAL_RANGES n)).sum) 0 100,
          fun n =>
            if n = m then none
            else some (calculate_parameter_impact (f n) (OPTIMAL_RANGES n))) := by
  rcases hm with hm | hm | hm | hm | hm <;> subst hm <;>
    simp [calculate_total_conversion, allNames, apply_ite]

/-- Omitting any of the seven names consumed by the derived aggregates aborts the
computation with no result. -/
lemma total_conversion_missing_critical (params : ParamName → Option ℝ)
    (h : params ParamName.t1 = none ∨ params ParamName.t2 = none ∨
      params ParamName.t3 = none ∨ params ParamName.t4 = none ∨
      params ParamName.t5 = none ∨ params ParamName.top_pressure = none ∨
      params ParamName.bottom_pressure = none) :
    calculate_total_conversion params = none := by
  unfold calculate_total_conversion
  cases htp : params ParamName.top_pressure <;>
    cases hbp : params ParamName.bottom_pressure <;>
      cases h1 : params ParamName.t1 <;>
        cases h2 : params ParamName.t2 <;>
          cases h3 : params ParamName.t3 <;>
            cases h4 : params ParamName.t4 <;>
              cases h5 : params ParamName.t5 <;>
                simp_all

/-! Claim theorems. -/

/-- C1: For every complete 12-name parameter set, calculate_total_conversion returns
conversion = clip(60 + sum of the twelve per-parameter impacts, 0, 100) together with
the per-parameter breakdown, and consequently the returned conversion always lies in
[0, 100] no matter how extreme the input values are. -/
theorem total_conversion_clamped_formula (f : ParamName → ℝ) :
    calculate_total_conversion (fun n => some (f n)) =
      some
        (clip
          (60 +
            (allNames.map fun n =>
              calculate_parameter_impact (f n) (OPTIMAL_RANGES n)).sum) 0 100,
          fun n => some (calculate_parameter_impact (f n) (OPTIMAL_RANGES n))) ∧
    0 ≤ clip
        (60 +
          (allNames.map fun n =>
            calculate_parameter_impact (f n) (OPTIMAL_RANGES n)).sum) 0 100 ∧
    clip
        (60 +
          (allNames.map fun n =>
            calculate_parameter_impact (f n) (OPTIMAL_RANGES n)).sum) 0 100 ≤ 100 :=
  ⟨total_conversion_complete f, (clip_bounds _).1, (clip_bounds _).2⟩

/-- C2: For every real value and every valid spec (max > min, sensitivity > 0,
base_impact ≥ 0), the parameter impact lies in [0, base_impact]: the boundary penalty
only reduces the impact, never amplifies it, and the result never goes negative. -/
theorem parameter_impact_bounds (value : ℝ) (p : ParamInfo)
    (hr : p.max > p.min) (hs : p.sensitivity > 0) (hb : p.base_impact ≥ 0) :
    0 ≤ calculate_parameter_impact value p ∧
      calculate_parameter_impact value p ≤ p.base_impact :=
  impact_nonneg_le_base value p hr hb

/-- Witness for C2 at value 240 and the t2 spec. -/
theorem parameter_impact_bounds_witness :
    0 ≤ calculate_parameter_impact 240 (OPTIMAL_RANGES ParamName.t2) ∧
      calculate_parameter_impact 240 (OPTIMAL_RANGES ParamName.t2) ≤
        (OPTIMAL_RANGES ParamName.t2).base_impact :=
  parameter_impact_bounds 240 (OPTIMAL_RANGES ParamName.t2)
    (by norm_num [OPTIMAL_RANGES]) (by norm_num [OPTIMAL_RANGES])
    (by norm_num [OPTIMAL_RANGES])

/-- C3 counterexample: at the same strictly positive normalized distance 1, the spec
with the SMALLER sensitivity (1, versus 2) yields a strictly SMALLER base effect, not
a larger one: the claimed direction of the sensitivity/decay relation is reversed. -/
theorem sensitivity_decay_cex :
    smooth_transition 1 0 (1 / (1 : ℝ)) < smooth_transition 1 0 (1 / (2 : ℝ)) := by
  have h := expit_strictMono (show (-1 : ℝ) < -(1 / 2) by norm_num)
  simpa [smooth_transition] using h

/-- C3 amended: for two specs identical except for sensitivities s1 < s2 (both
positive), at any strictly positive normalized distance the spec with the LARGER
sensitivity yields the larger base effect; smaller sensitivity gives the sharper
decay, since the sigmoid argument is scaled by 1/sensitivity. -/
theorem sensitivity_decay_direction (s1 s2 d : ℝ)
    (hs1 : 0 < s1) (h12 : s1 < s2) (hd : 0 < d) :
    smooth_transition d 0 (1 / s1) < smooth_transition d 0 (1 / s2) := by
  unfold smooth_transition
  apply expit_strictMono
  rw [sub_zero, neg_mul, neg_mul, neg_lt_neg_iff, mul_one_div, mul_one_div]
  exact div_lt_div_of_pos_left hd hs1 h12

/-- Witness for the amended C3 at distance 2 with sensitivities 1 < 3. -/
theorem sensitivity_decay_direction_witness :
    smooth_transition 2 0 (1 / (1 : ℝ)) < smooth_transition 2 0 (1 / (3 : ℝ)) :=
  sensitivity_decay_direction 1 3 2 (by norm_num) (by norm_num) (by norm_num)

noncomputable section

/-- The concrete scenario's parameter set: every parameter at its optimal value
(t2=200, t3=200, t4=200, t1=195, t5=195, lhsv=0.6, h2gly_ratio=6.5, liquid_feed=100,
hydrogen_flow=450, top_pressure=30, bottom_pressure=25, feed_ph=7). -/
def optimalParams : ParamName → Option ℝ
  | .t2 => some 200
  | .t3 => some 200
  | .t4 => some 200
  | .t1 => some 195
  | .t5 => some 195
  | .lhsv => some 0.6
  | .h2gly_ratio => some 6.5
  | .liquid_feed => some 100
  | .hydrogen_flow => some 450
  | .top_pressure => some 30
  | .bottom_pressure => some 25
  | .feed_ph => some 7

end

/-- The scenario values are exactly the optimal values of the table. -/
lemma optimalParams_eq :
    optimalParams = fun n => some ((OPTIMAL_RANGES n).optimal) := by
  funext n
  cases n <;> simp [optimalParams, OPTIMAL_RANGES]

/-- The sum of the twelve impacts with every parameter at its optimal value is
exactly half the sum of the base impacts: 135 * 0.5 = 67.5. -/
lemma optimal_sum_eq :
    (allNames.map fun n =>
      calculate_parameter_impact ((OPTIMAL_RANGES n).optimal) (OPTIMAL_RANGES n)).sum =
      (67.5 : ℝ) := by
  simp only [allNames, List.map_cons, List.map_nil, impact_optimal,
    List.sum_cons, List.sum_nil]
  norm_num [OPTIMAL_RANGES]

/-- C4 counterexample: with every parameter at its optimal value the pre-clamp total
is 60 + 67.5 = 127.5, not the claimed ~107.5 (the base impacts sum to 135, so half of
that is 67.5, not 47.5). -/
theorem optimal_scenario_total_cex :
    60 +
      (allNames.map fun n =>
        calculate_parameter_impact ((OPTIMAL_RANGES n).optimal) (OPTIMAL_RANGES n)).sum =
      (127.5 : ℝ) ∧ (127.5 : ℝ) ≠ 107.5 := by
  constructor
  · rw [optimal_sum_eq]; norm_num
  · norm_num

/-- C4 amended: with every parameter set exactly to its optimal value, every impact
equals half of that parameter's base impact (t2's impact = 15.0), the pre-clamp total
is 60 + sum(base_impact * 0.5) = 60 + 67.5 = 127.5, and the returned conversion is
the clamped value 100. -/
theorem optimal_scenario_eval :
    (∀ n : ParamName,
      calculate_parameter_impact ((OPTIMAL_RANGES n).optimal) (OPTIMAL_RANGES n) =
        (OPTIMAL_RANGES n).base_impact * 0.5) ∧
    calculate_parameter_impact ((OPTIMAL_RANGES ParamName.t2).optimal)
        (OPTIMAL_RANGES ParamName.t2) = 15 ∧
    60 +
        (allNames.map fun n =>
          calculate_parameter_impact ((OPTIMAL_RANGES n).optimal)
            (OPTIMAL_RANGES n)).sum = (127.5 : ℝ) ∧
    calculate_total_conversion optimalParams =
      some (100, fun n => some ((OPTIMAL_RANGES n).base_impact * 0.5)) := by
  refine ⟨fun n => impact_optimal _, ?_, ?_, ?_⟩
  · rw [impact_optimal]; norm_num [OPTIMAL_RANGES]
  · rw [optimal_sum_eq]; norm_num
  · rw [optimalParams_eq, total_conversion_complete, optimal_sum_eq]
    have hc : clip ((60 : ℝ) + 67.5) 0 100 = 100 := by
      rw [clip, max_eq_left (by norm_num), min_eq_right (by norm_num)]
    have hbd :
        (fun n => some (calculate_parameter_impact ((OPTIMAL_RANGES n).optimal)
            (OPTIMAL_RANGES n))) =
          fun n => some ((OPTIMAL_RANGES n).base_impact * (0.5 : ℝ)) := by
      funext n
      rw [impact_optimal]
    rw [hc, hbd]

/-- C5 counterexample: omitting the required name lhsv (all other eleven present)
does NOT make calculate_total_conversion fail: it returns a normal result. -/
theorem missing_lhsv_no_error_cex :
    (calculate_total_conversion fun n =>
      if n = ParamName.lhsv then none else some 0).isSome = true := by
  rw [total_conversion_missing_noncritical (fun _ => 0) ParamName.lhsv (Or.inl rfl)]
  rfl

/-- C5 amended: only omissions among the seven names consumed by the derived
aggregates (t1, t2, t3, t4, t5, top_pressure, bottom_pressure) abort the computation
with a missing-key error and no result; omitting one of the other five names (lhsv,
h2gly_ratio, liquid_feed, hydrogen_flow, feed_ph) raises no error and a result is
still returned. -/
theorem missing_key_behavior :
    (∀ params : ParamName → Option ℝ,
      (params ParamName.t1 = none ∨ params ParamName.t2 = none ∨
        params ParamName.t3 = none ∨ params ParamName.t4 = none ∨
        params ParamName.t5 = none ∨ params ParamName.top_pressure = none ∨
        params ParamName.bottom_pressure = none) →
      calculate_total_conversion params = none) ∧
    (∀ (f : ParamName → ℝ) (m : ParamName),
      (m = ParamName.lhsv ∨ m = ParamName.h2gly_ratio ∨ m = ParamName.liquid_feed ∨
        m = ParamName.hydrogen_flow ∨ m = ParamName.feed_ph) →
      (calculate_total_conversion fun n =>
        if n = m then none else some (f n)).isSome = true) := by
  constructor
  · exact total_conversion_missing_critical
  · intro f m hm
    rw [total_conversion_missing_noncritical f m hm]
    rfl

/-- Witness for the amended C5: omitting t1 aborts with no result. -/
theorem missing_key_behavior_witness :
    calculate_total_conversion (fun n =>
      if n = ParamName.t1 then none else some 0) = none :=
  missing_key_behavior.1 _ (Or.inl (by simp))

/-- C6: a value exactly equal to spec.min or spec.max is treated as in range: the
0.2-excess penalty multiplier is not applied, and the impact is just
base_impact * smooth_transition(|value - optimal| / rangeSize, 0, 1/sensitivity). -/
theorem boundary_value_in_range (p : ParamInfo) (hr : p.max > p.min) :
    calculate_parameter_impact p.min p =
      p.base_impact *
        smooth_transition (|p.min - p.optimal| / (p.max - p.min)) 0
          (1 / p.sensitivity) ∧
    calculate_parameter_impact p.max p =
      p.base_impact *
        smooth_transition (|p.max - p.optimal| / (p.max - p.min)) 0
          (1 / p.sensitivity) := by
  constructor
  · simp only [calculate_parameter_impact]
    rw [if_neg]
    rintro (h | h) <;> linarith
  · simp only [calculate_parameter_impact]
    rw [if_neg]
    rintro (h | h) <;> linarith

/-- Witness for C6 at the t2 spec (min 195, max 205). -/
theorem boundary_value_in_range_witness :
    calculate_parameter_impact (OPTIMAL_RANGES ParamName.t2).min
        (OPTIMAL_RANGES ParamName.t2) =
      (OPTIMAL_RANGES ParamName.t2).base_impact *
        smooth_transition
          (|(OPTIMAL_RANGES ParamName.t2).min - (OPTIMAL_RANGES ParamName.t2).optimal| /
            ((OPTIMAL_RANGES ParamName.t2).max - (OPTIMAL_RANGES ParamName.t2).min)) 0
          (1 / (OPTIMAL_RANGES ParamName.t2).sensitivity) ∧
    calculate_parameter_impact (OPTIMAL_RANGES ParamName.t2).max
        (OPTIMAL_RANGES ParamName.t2) =
      (OPTIMAL_RANGES ParamName.t2).base_impact *
        smooth_transition
          (|(OPTIMAL_RANGES ParamName.t2).max - (OPTIMAL_RANGES ParamName.t2).optimal| /
            ((OPTIMAL_RANGES ParamName.t2).max - (OPTIMAL_RANGES ParamName.t2).min)) 0
          (1 / (OPTIMAL_RANGES ParamName.t2).sensitivity) :=
  boundary_value_in_range (OPTIMAL_RANGES ParamName.t2) (by norm_num [OPTIMAL_RANGES])

/-- C7: for every valid spec (max > min, sensitivity > 0), the impact at the optimal
value is exactly base_impact * 0.5, and smooth_transition(x, x, s) = 0.5 for every x
and every s > 0. -/
theorem impact_at_optimal_half (p : ParamInfo)
    (hr : p.max > p.min) (hs : p.sensitivity > 0) :
    calculate_parameter_impact p.optimal p = p.base_impact * 0.5 ∧
    ∀ (x s : ℝ), 0 < s → smooth_transition x x s = 0.5 := by
  refine ⟨impact_optimal p, fun x s hpos => ?_⟩
  rw [smooth_transition, sub_self, neg_zero, zero_mul, expit_zero_eq]
  norm_num

/-- Witness for C7 at the t2 spec. -/
theorem impact_at_optimal_half_witness :
    calculate_parameter_impact (OPTIMAL_RANGES ParamName.t2).optimal
        (OPTIMAL_RANGES ParamName.t2) =
      (OPTIMAL_RANGES ParamName.t2).base_impact * 0.5 ∧
    ∀ (x s : ℝ), 0 < s → smooth_transition x x s = 0.5 :=
  impact_at_optimal_half (OPTIMAL_RANGES ParamName.t2)
    (by norm_num [OPTIMAL_RANGES]) (by norm_num [OPTIMAL_RANGES])

/-- C8: the derived aggregates (average temperature, temperature range, pressure
differential) computed inside calculate_total_conversion are inert: on every complete
parameter set the function returns exactly the same result as the variant with those
three computations removed. -/
theorem derived_aggregates_inert (f : ParamName → ℝ) :
    calculate_total_conversion (fun n => some (f n)) =
      calculate_total_conversion_noaggr (fun n => some (f n)) := by
  simp [calculate_total_conversion, calculate_total_conversion_noaggr]

/-- C9: a parameter set containing the seven keys consumed by the derived aggregates
but omitting one of the other five required names raises no error at all: it silently
returns a result whose breakdown lacks the missing name and whose conversion omits
that parameter's impact from the sum. -/
theorem partial_result_on_missing_noncritical (f : ParamName → ℝ) (m : ParamName)
    (hm : m = ParamName.lhsv ∨ m = ParamName.h2gly_ratio ∨ m = ParamName.liquid_feed ∨
      m = ParamName.hydrogen_flow ∨ m = ParamName.feed_ph) :
    ∃ c bd,
      calculate_total_conversion (fun n => if n = m then none else some (f n)) =
        some (c, bd) ∧
      bd m = none ∧
      c = clip
          (60 +
            ((allNames.filter fun n => n ≠ m).map fun n =>
              calculate_parameter_impact (f n) (OPTIMAL_RANGES n)).sum) 0 100 := by
  refine ⟨_, _, total_conversion_missing_noncritical f m hm, ?_, rfl⟩
  simp

/-- Witness for C9: omitting feed_ph with all other values 0 returns a result whose
breakdown lacks feed_ph and whose sum ranges over the other eleven names. -/
theorem partial_result_on_missing_noncritical_witness :
    ∃ c bd,
      calculate_total_conversion
          (fun n => if n = ParamName.feed_ph then none else some 0) =
        some (c, bd) ∧
      bd ParamName.feed_ph = none ∧
      c = clip
          (60 +
            ((allNames.filter fun n => n ≠ ParamName.feed_ph).map fun n =>
              calculate_parameter_impact 0 (OPTIMAL_RANGES n)).sum) 0 100 :=
  partial_result_on_missing_noncritical (fun _ => 0) ParamName.feed_ph
    (Or.inr (Or.inr (Or.inr (Or.inr rfl))))

/-- A spec with base_impact = 0 (fields min, max, optimal, weight, sensitivity,
base_impact). -/
noncomputable def specZero : ParamInfo := ⟨0, 1, 0.5, 0, 1, 0⟩

/-- C10 counterexample: for the valid spec specZero (min 0 < max 1, sensitivity 1 > 0)
with base_impact = 0, the value 0 differs from the optimal value 0.5 yet its impact
still equals base_impact * 0.5 (both are 0), so equality does not hold exactly at the
optimal value. -/
theorem half_bound_equality_cex :
    specZero.min < specZero.max ∧ 0 < specZero.sensitivity ∧
    (0 : ℝ) ≠ specZero.optimal ∧
    calculate_parameter_impact 0 specZero = specZero.base_impact * 0.5 := by
  refine ⟨by norm_num [specZero], by norm_num [specZero], by norm_num [specZero], ?_⟩
  rw [impact_eq]
  norm_num [specZero]

/-- C10 amended: for every valid spec (max > min, sensitivity > 0, base_impact ≥ 0)
the impact is at most base_impact * 0.5, and when base_impact is strictly positive
the bound is attained exactly at the optimal value. -/
theorem impact_half_bound (value : ℝ) (p : ParamInfo)
    (hr : p.max > p.min) (hs : p.sensitivity > 0) (hb : 0 ≤ p.base_impact) :
    calculate_parameter_impact value p ≤ p.base_impact * 0.5 ∧
    (0 < p.base_impact →
      (calculate_parameter_impact value p = p.base_impact * 0.5 ↔
        value = p.optimal)) := by
  refine ⟨impact_le_half value p hr hs hb, fun hb' => ⟨?_, ?_⟩⟩
  · intro h
    by_contra hne
    exact absurd h (ne_of_lt (impact_lt_half value p hr hs hb' hne))
  · intro h
    subst h
    exact impact_optimal p

/-- Witness for the amended C10 at value 201 and the t2 spec. -/
theorem impact_half_bound_witness :
    calculate_parameter_impact 201 (OPTIMAL_RANGES ParamName.t2) ≤
      (OPTIMAL_RANGES ParamName.t2).base_impact * 0.5 ∧
    (0 < (OPTIMAL_RANGES ParamName.t2).base_impact →
      (calculate_parameter_impact 201 (OPTIMAL_RANGES ParamName.t2) =
          (OPTIMAL_RANGES ParamName.t2).base_impact * 0.5 ↔
        (201 : ℝ) = (OPTIMAL_RANGES ParamName.t2).optimal)) :=
  impact_half_bound 201 (OPTIMAL_RANGES ParamName.t2)
    (by norm_num [OPTIMAL_RANGES]) (by norm_num [OPTIMAL_RANGES])
    (by norm_num [OPTIMAL_RANGES])

end Glycerol
